import Mathlib

/-!
Shallow embedding of the ThermiaServerBackend device-synchronization,
firmware-distribution and session-upload subsystem.

The definitions below are translated from the Django sources:
`src/devices/models.py`, `src/devices/authentication.py`,
`src/devices/serializers.py`, `src/devices/views.py`,
`src/patient_sessions/models.py`, `src/patient_sessions/serializers.py`,
`src/patient_sessions/views.py` and `src/patients/models.py`.
Database tables are lists of rows, timestamps and dates are natural
numbers, and the per-request handlers are state-passing functions that
return an HTTP-level result together with the database state after the
request.  Python exceptions that escape a handler are represented
explicitly as error results.
-/

namespace Thermia

/-- Model of Python `hashlib.sha256(data).hexdigest()`: an executable
stand-in hash on byte lists.  Every theorem below depends only on it
being a deterministic function of the bytes, never on SHA-256 internals. -/
def sha256_hexdigest (data : List Nat) : String :=
  toString (data.foldl (fun a b => (a * 131 + b + 1) % 1000000007) 7)

/-- Python character comparison: by Unicode code point. -/
def pyCharLt (a b : Char) : Bool := a.toNat < b.toNat

/-- Lexicographic comparison of character lists, the order Python's
`<` induces on strings. -/
def pyStrLtAux : List Char → List Char → Bool
  | [], [] => false
  | [], _ :: _ => true
  | _ :: _, [] => false
  | a :: as, b :: bs =>
    if pyCharLt a b then true
    else if pyCharLt b a then false
    else pyStrLtAux as bs

/-- Python string comparison `a < b`: lexicographic by code point.  The
`firmware_version__gt` filter and the `order_by('-firmware_version')`
sort of `DeviceSyncView.post` compare version strings exactly this way
(string-ordinal, not semantic-version order). -/
def pyStrLt (a b : String) : Bool := pyStrLtAux a.data b.data

/-- Python exceptions that can escape or be caught inside the handlers. -/
inductive PyError where
  | attributeError (msg : String)
  | typeError (msg : String)
  | multipleObjectsReturned (model : String)
  | integrityError (msg : String)
  | databaseError (msg : String)
deriving Repr, DecidableEq

/-- Decidable equality of `Except` results, used to evaluate the
handlers on concrete fixtures. -/
instance {ε α : Type} [DecidableEq ε] [DecidableEq α] : DecidableEq (Except ε α)
  | .error x, .error y =>
    if h : x = y then .isTrue (congrArg Except.error h)
    else .isFalse (fun hc => h (Except.error.inj hc))
  | .error _, .ok _ => .isFalse (fun hc => Except.noConfusion hc)
  | .ok _, .error _ => .isFalse (fun hc => Except.noConfusion hc)
  | .ok x, .ok y =>
    if h : x = y then .isTrue (congrArg Except.ok h)
    else .isFalse (fun hc => h (Except.ok.inj hc))

/-- Device row, mirroring the field list of `class Device` in
`devices/models.py` (that model declares no `is_locked` field; the
boolean the views assign under that name is a plain Python instance
attribute, not a persisted column). -/
structure Device where
  device_id : String
  serial_number : String
  clinic : Option String
  firmware_version : String
  status : String
  lock_reason : Option String
  last_heartbeat : Option Nat
  last_online : Option Nat
  api_key : String
deriving Repr, DecidableEq

/-- License row, mirroring `class License` in `devices/models.py`
(`device` is a `ForeignKey` with `related_name='licenses'`). -/
structure License where
  id : Nat
  device_id : String
  status : String
  license_type : String
  start_date : Option Nat
  end_date : Option Nat
deriving Repr, DecidableEq

/-- Firmware row, mirroring `class Firmware` in `devices/models.py`.
Note that `firmware_version` is declared `unique=True` on the column
itself, i.e. globally unique across all devices. -/
structure Firmware where
  id : Nat
  device_id : String
  firmware_version : String
  file_path : String
  release_notes : String
  checksum : String
deriving Repr, DecidableEq

/-- Session row, mirroring `class Session` in `patient_sessions/models.py`.
The JSON `summary` payload is kept opaque as a string. -/
structure Session where
  id : Nat
  patient : Option String
  device : Option String
  clinic : Option String
  summary : String
  start_time : Nat
  ended_at : Option Nat
  status : String
  cost : Nat
deriving Repr, DecidableEq

/-- SessionLog row, mirroring `class SessionLog` in
`patient_sessions/models.py` (`session` is a nullable foreign key). -/
structure SessionLog where
  session : Option Nat
  log_type : String
  message : String
  logged_at : Nat
deriving Repr, DecidableEq

/-- Modelled from the spec: `class PatientToken` is imported from
`patients.models` by `patient_sessions/views.py` and `patients/views.py`
but its definition is not among the source files; per the spec a
temporary patient token resolves to a patient provided it has not
expired.  Fields follow the keyword arguments of
`PatientToken.objects.create` in `patients/views.py`. -/
structure PatientToken where
  patient_id : String
  token : String
  clinic_id : String
  expires_at : Nat
deriving Repr, DecidableEq

/-- Relational store: one list per table, plus the firmware file backing
store (path to bytes) and primary-key counters. -/
structure DB where
  devices : List Device
  licenses : List License
  firmwares : List Firmware
  sessions : List Session
  session_logs : List SessionLog
  patients : List String
  patient_tokens : List PatientToken
  files : List (String × List Nat)
  next_session_id : Nat
  next_firmware_id : Nat
deriving Repr, DecidableEq

/-- Persist a device row (`device.save()`): replace the row with the same
primary key. -/
def DB.saveDevice (db : DB) (d : Device) : DB :=
  { db with devices := db.devices.map (fun x => if x.device_id == d.device_id then d else x) }

/-- Reading `device.is_locked` (`devices/views.py` line 191): the `Device`
model of `devices/models.py` declares no `is_locked` field and Django
model instances raise `AttributeError` for undefined attributes, so this
read always fails on a freshly loaded device. -/
def Device.read_is_locked (_d : Device) : Except PyError Bool :=
  .error (.attributeError "'Device' object has no attribute 'is_locked'")

/-- Reading `device.license` (`DeviceViewSet.lock` / `unlock`): the
reverse accessor declared by `License.device` is `device.licenses`
(`related_name='licenses'`), so `device.license` raises
`AttributeError`, which the surrounding `except License.DoesNotExist`
clause does not catch. -/
def Device.read_license (_d : Device) : Except PyError License :=
  .error (.attributeError "'Device' object has no attribute 'license'")

/-! ## DeviceAuthentication (`devices/authentication.py` lines 21-33) -/

/-- Outcome of `DeviceAuthentication.authenticate`: `noCredential` models
`return None` on a missing header, `ok` models `(device, None)`,
`failed` models `raise AuthenticationFailed(...)`. -/
inductive AuthOutcome where
  | noCredential
  | ok (d : Device)
  | failed (msg : String)
deriving Repr, DecidableEq

/-- `DeviceAuthentication.authenticate`: look up
`Device.objects.get(api_key=api_key, status='active')`; `api_key` is
declared `unique=True`, so at most one row matches and `get` is a first
match over the table. -/
def DeviceAuthentication.authenticate (db : DB) (api_key_header : Option String) :
    AuthOutcome :=
  match api_key_header with
  | none => .noCredential
  | some k =>
    match db.devices.find? (fun d => d.api_key == k && d.status == "active") with
    | some d => .ok d
    | none => .failed "Invalid API key"

/-! ## DeviceSyncSerializer (`devices/serializers.py` lines 155-165) -/

/-- Session item of a sync payload as read by
`DeviceSyncView.process_sessions` (`sessions` is a raw `JSONField`;
the handler reads the dictionary keys `patient_id`, `summary`,
`start_time`, `ended_at`). -/
structure SyncSessionItem where
  patient_id : Option String
  summary : Option String
  start_time : Option Nat
  ended_at : Option Nat
deriving Repr, DecidableEq

/-- Log item of a sync payload as read by
`DeviceSyncView.process_logs` (keys `session_id`, `log_type`,
`message`, `logged_at`). -/
structure SyncLogItem where
  session_id : Option Nat
  log_type : Option String
  message : Option String
  logged_at : Option Nat
deriving Repr, DecidableEq

/-- Request body of `POST /devices/sync/`, one field per declared
serializer field of `DeviceSyncSerializer`; `none` models an absent key. -/
structure SyncRequest where
  serial : Option String
  fw_ver : Option String
  firmware_version : Option String
  status : Option String
  sessions : Option (List SyncSessionItem)
  logs : Option (List SyncLogItem)
deriving Repr, DecidableEq

/-- Field-presence validation of `DeviceSyncSerializer`: `serial` is a
required `CharField` (and blank values are rejected by default); the
other five fields are all declared `required=False`. -/
def DeviceSyncSerializer.is_valid (r : SyncRequest) : Bool :=
  match r.serial with
  | some s => !(s == "")
  | none => false

/-! ## DeviceSyncView (`devices/views.py` lines 154-284) -/

/-- Firmware-update descriptor assembled at `devices/views.py` lines
212-219. -/
structure FirmwareUpdateInfo where
  version : String
  url : String
  checksum : String
  release_notes : String
  mandatory : Bool
deriving Repr, DecidableEq

/-- Static device configuration (`get_device_config`, lines 260-267),
with the license-derived feature flags of `get_device_features`. -/
structure DeviceConfig where
  sync_interval : Nat
  max_retry_count : Nat
  log_level : String
  auto_update : Bool
  remote_diagnostics : Bool
  data_encryption : Bool
  advanced_reporting : Bool
  multi_user : Bool
deriving Repr, DecidableEq

/-- Body of a successful sync response (`devices/views.py` lines
203-219). -/
structure SyncResponse where
  status : String
  is_locked : Bool
  lock_reason : String
  license_valid : Bool
  device_config : DeviceConfig
  firmware_update : Option FirmwareUpdateInfo
deriving Repr, DecidableEq

/-- HTTP-level outcome of `DeviceSyncView.post`: 400 on serializer
errors, 200 with a body, or an uncaught exception (HTTP 500). -/
inductive SyncResult where
  | badRequest
  | ok (resp : SyncResponse)
  | serverError (e : PyError)
deriving Repr, DecidableEq

namespace DeviceSyncView

/-- License-validity evaluation (`devices/views.py` lines 174-181):
`License.objects.get(device=device, status='active')` raises
`MultipleObjectsReturned` when several active licenses exist (not
caught) and `DoesNotExist` when none does (caught, leaving
`license_valid = False`); comparing a `NULL` `end_date` against
`timezone.now().date()` raises `TypeError`. -/
def check_license (db : DB) (dev : Device) (today : Nat) : Except PyError Bool :=
  match db.licenses.filter (fun l => l.device_id == dev.device_id && l.status == "active") with
  | [] => .ok false
  | [l] =>
    match l.end_date with
    | none => .error (.typeError "'>=' not supported between instances of 'NoneType' and 'datetime.date'")
    | some e => .ok (decide (today ≤ e))
  | _ :: _ :: _ => .error (.multipleObjectsReturned "License")

/-- Firmware-update query (`devices/views.py` lines 185-188):
`Firmware.objects.filter(device=device, firmware_version__gt=...)
.order_by('-firmware_version').first()` — the candidate with the
lexicographically greatest version string strictly above the device's
current one (string comparison, as in Python). -/
def latest_firmware (fws : List Firmware) (deviceId : String) (current : String) :
    Option Firmware :=
  (fws.filter (fun f => f.device_id == deviceId && pyStrLt current f.firmware_version)).foldl
    (fun acc f =>
      match acc with
      | none => some f
      | some g => if pyStrLt g.firmware_version f.firmware_version then some f else some g)
    none

/-- Download URL built by `request.build_absolute_uri` at line 215. -/
def firmware_download_url (fid : Nat) : String :=
  "/api/devices/firmware/download/" ++ toString fid ++ "/"

/-- Firmware-update descriptor of lines 212-219. -/
def firmware_update_info (f : Firmware) : FirmwareUpdateInfo :=
  { version := f.firmware_version
    url := firmware_download_url f.id
    checksum := f.checksum
    release_notes := f.release_notes
    mandatory := true }

/-- `get_device_features` (lines 269-284): full-license devices get the
two extra feature flags; the license lookup is `filter(...).first()`. -/
def get_device_features (db : DB) (dev : Device) : Bool :=
  match db.licenses.find? (fun l => l.device_id == dev.device_id) with
  | some l => l.license_type == "full"
  | none => false

/-- `get_device_config` (lines 260-267). -/
def get_device_config (db : DB) (dev : Device) : DeviceConfig :=
  let full := get_device_features db dev
  { sync_interval := 300
    max_retry_count := 3
    log_level := "info"
    auto_update := true
    remote_diagnostics := true
    data_encryption := true
    advanced_reporting := full
    multi_user := full }

/-- `process_sessions` (lines 225-241): every `Session.objects.create`
is wrapped in its own try/except, so a failing item is logged and
skipped and the loop continues; the fault oracle says whether the k-th
write raises. -/
def process_sessions (oracle : Nat → Bool) (db : DB) (dev : Device)
    (items : List SyncSessionItem) (now : Nat) (k : Nat) : DB × Nat :=
  match items with
  | [] => (db, k)
  | item :: rest =>
    if oracle k then process_sessions oracle db dev rest now (k + 1)
    else
      let s : Session :=
        { id := db.next_session_id
          patient := item.patient_id
          device := some dev.device_id
          clinic := dev.clinic
          summary := item.summary.getD ""
          start_time := item.start_time.getD now
          ended_at := item.ended_at
          status := "completed"
          cost := 0 }
      process_sessions oracle
        { db with sessions := db.sessions ++ [s], next_session_id := db.next_session_id + 1 }
        dev rest now (k + 1)

/-- `process_logs` (lines 244-257): same per-item try/except shape;
`session_id` is taken verbatim from the payload. -/
def process_logs (oracle : Nat → Bool) (db : DB)
    (items : List SyncLogItem) (now : Nat) (k : Nat) : DB × Nat :=
  match items with
  | [] => (db, k)
  | item :: rest =>
    if oracle k then process_logs oracle db rest now (k + 1)
    else
      let l : SessionLog :=
        { session := item.session_id
          log_type := item.log_type.getD "info"
          message := item.message.getD ""
          logged_at := item.logged_at.getD now }
      process_logs oracle { db with session_logs := db.session_logs ++ [l] } rest now (k + 1)

/-- `DeviceSyncView.post` (lines 161-222), step for step: serializer
validation (400 on failure), persist the heartbeat / firmware-version
update, evaluate the license, query the newest firmware, then read
`device.is_locked` — which raises `AttributeError` since the model has
no such field — before the session/log processing and the response
assembly of the remaining lines would run. -/
def post (oracle : Nat → Bool) (db : DB) (dev : Device) (r : SyncRequest)
    (now : Nat) (today : Nat) : SyncResult × DB :=
  if DeviceSyncSerializer.is_valid r = false then (.badRequest, db)
  else
    let dev1 : Device :=
      { dev with
        firmware_version := r.firmware_version.getD dev.firmware_version
        last_heartbeat := some now
        last_online := some now }
    let db1 := db.saveDevice dev1
    match check_license db1 dev1 today with
    | .error e => (.serverError e, db1)
    | .ok license_valid =>
      let latest := latest_firmware db1.firmwares dev1.device_id dev1.firmware_version
      match dev1.read_is_locked with
      | .error e => (.serverError e, db1)
      | .ok axis_locked =>
        let is_locked := axis_locked || !license_valid
        let (db2, k1) := process_sessions oracle db1 dev1 (r.sessions.getD []) now 0
        let (db3, _) := process_logs oracle db2 (r.logs.getD []) now k1
        let resp : SyncResponse :=
          { status := if is_locked then "locked" else "ok"
            is_locked := is_locked
            lock_reason := if is_locked then (dev1.lock_reason.getD "") else ""
            license_valid := license_valid
            device_config := get_device_config db3 dev1
            firmware_update := latest.map firmware_update_info }
        (.ok resp, db3)

end DeviceSyncView

/-! ## DeviceViewSet lock / unlock (`devices/views.py` lines 58-109) -/

namespace DeviceViewSet

/-- `DeviceViewSet.lock` (lines 58-83): sets the in-memory `is_locked`
attribute (not a model field, silently dropped by `save()`), persists
`status = 'locked'` and the lock reason, then reads `device.license`,
which raises `AttributeError` — uncaught, since the handler only
catches `License.DoesNotExist`.  The license branch below is the
translation of lines 69-74 as written. -/
def lock (db : DB) (dev : Device) (reason : Option String) :
    Except PyError Unit × DB :=
  let r := reason.getD "access restricted"
  let dev1 := { dev with status := "locked", lock_reason := some r }
  let db1 := db.saveDevice dev1
  match dev1.read_license with
  | .error e => (.error e, db1)
  | .ok lic =>
    let lic1 := { lic with status := "locked" }
    (.ok (), { db1 with licenses := db1.licenses.map (fun x => if x.id == lic1.id then lic1 else x) })

/-- `DeviceViewSet.unlock` (lines 85-109): the mirror image of `lock`,
with the same `device.license` attribute read. -/
def unlock (db : DB) (dev : Device) : Except PyError Unit × DB :=
  let dev1 := { dev with status := "active", lock_reason := some "" }
  let db1 := db.saveDevice dev1
  match dev1.read_license with
  | .error e => (.error e, db1)
  | .ok lic =>
    let lic1 := { lic with status := "active" }
    (.ok (), { db1 with licenses := db1.licenses.map (fun x => if x.id == lic1.id then lic1 else x) })

end DeviceViewSet

/-! ## SessionUploadSerializer (`patient_sessions/serializers.py` lines 81-125) -/

/-- Session item of an upload batch (`SessionUploadItemSerializer`). -/
structure SessionItem where
  reference : String
  patient_id : Option String
  patient_token : Option String
  start_time : Nat
  ended_at : Option Nat
  summary : String
deriving Repr, DecidableEq

/-- Log item of an upload batch (`LogUploadItemSerializer`). -/
structure LogItem where
  session_reference : String
  log_type : String
  message : String
  logged_at : Nat
deriving Repr, DecidableEq

/-- Upload request body: `sessions` is required, `logs` defaults to the
empty list (`required=False`). -/
structure UploadRequest where
  sessions : List SessionItem
  logs : List LogItem
deriving Repr, DecidableEq

/-- Choices of `SessionLog.LOG_TYPE_CHOICES`
(`patient_sessions/models.py`). -/
def LOG_TYPE_CHOICES : List String := ["info", "error", "warning"]

/-- Field-level validation of `LogUploadItemSerializer`: `log_type` is a
`ChoiceField` over `SessionLog.LOG_TYPE_CHOICES`. -/
def LogItem.fields_valid (l : LogItem) : Bool :=
  LOG_TYPE_CHOICES.contains l.log_type

namespace SessionUploadSerializer

/-- Cross-field check of `SessionUploadSerializer.validate` (lines
110-124): every log's `session_reference` must be among the batch's
session `reference` values, otherwise a `ValidationError` is raised. -/
def refs_valid (r : UploadRequest) : Bool :=
  r.logs.all (fun l => (r.sessions.map SessionItem.reference).contains l.session_reference)

/-- Full serializer validation: the per-item field checks run before the
cross-field `validate` method. -/
def is_valid (r : UploadRequest) : Bool :=
  r.logs.all LogItem.fields_valid && refs_valid r

end SessionUploadSerializer

/-! ## SessionUploadView (`patient_sessions/views.py` lines 18-112) -/

/-- HTTP-level outcome of `SessionUploadView.post`: 400 on serializer
errors, 201 with the two counters, or 500 when the atomic block
raised. -/
inductive UploadResult where
  | badRequest
  | created (created_sessions : Nat) (created_logs : Nat)
  | serverError (e : PyError)
deriving Repr, DecidableEq

namespace SessionUploadView

/-- Patient resolution of `create_session` (lines 84-102): a present
`patient_id` is looked up directly (a failed lookup leaves the patient
unset and does not fall through to the token branch — the source uses
`elif`); otherwise a present `patient_token` is resolved through the
token store provided `expires_at > now`. -/
def resolve_patient (db : DB) (item : SessionItem) (now : Nat) : Option String :=
  match item.patient_id with
  | some pid => if db.patients.contains pid then some pid else none
  | none =>
    match item.patient_token with
    | some tok =>
      match db.patient_tokens.find? (fun t => t.token == tok && decide (now < t.expires_at)) with
      | some t => some t.patient_id
      | none => none
    | none => none

/-- `Session.objects.create` call of `create_session` (lines 104-112). -/
def create_session (db : DB) (dev : Device) (item : SessionItem) (now : Nat) :
    Session × DB :=
  let s : Session :=
    { id := db.next_session_id
      patient := resolve_patient db item now
      device := some dev.device_id
      clinic := dev.clinic
      summary := item.summary
      start_time := item.start_time
      ended_at := item.ended_at
      status := "completed"
      cost := 0 }
  (s, { db with sessions := db.sessions ++ [s], next_session_id := db.next_session_id + 1 })

/-- Session loop of `post` (lines 45-49) inside the atomic block: create
each session, record `session_map[reference] = session` (a later item
with the same reference overwrites the earlier binding, hence the
cons-to-front map with first-match lookup) and count it.  The fault
oracle says whether the k-th persistence call raises. -/
def create_sessions_loop (oracle : Nat → Bool) (db : DB) (dev : Device)
    (items : List SessionItem) (now : Nat) (k : Nat)
    (session_map : List (String × Nat)) (count : Nat) :
    Except PyError (DB × List (String × Nat) × Nat × Nat) :=
  match items with
  | [] => .ok (db, session_map, count, k)
  | item :: rest =>
    if oracle k then .error (.databaseError "session create failed")
    else
      let (s, db1) := create_session db dev item now
      create_sessions_loop oracle db1 dev rest now (k + 1)
        ((item.reference, s.id) :: session_map) (count + 1)

/-- Log preparation of `post` (lines 52-64): a log whose reference
resolves in `session_map` becomes a `SessionLog` object bound to the
mapped session, any other log is silently skipped. -/
def build_log_objects (session_map : List (String × Nat)) (logs : List LogItem) :
    List SessionLog :=
  logs.filterMap (fun l =>
    match session_map.find? (fun p => p.fst == l.session_reference) with
    | some p =>
      some { session := some p.snd
             log_type := l.log_type
             message := l.message
             logged_at := l.logged_at }
    | none => none)

/-- Body of the `transaction.atomic` block of `post` (lines 42-68):
create every session, prepare the log objects, and bulk-create them;
the first raised exception aborts the whole block. -/
def atomic_block (oracle : Nat → Bool) (db : DB) (dev : Device) (r : UploadRequest)
    (now : Nat) : Except PyError (DB × Nat × Nat) := do
  let (db1, session_map, count, k) ←
    create_sessions_loop oracle db dev r.sessions now 0 [] 0
  let log_objects := build_log_objects session_map r.logs
  let db2 ←
    if log_objects.isEmpty then pure db1
    else if oracle k then Except.error (.databaseError "bulk create failed")
    else pure { db1 with session_logs := db1.session_logs ++ log_objects }
  pure (db2, count, log_objects.length)

/-- `SessionUploadView.post` (lines 27-77): serializer validation (400,
nothing persisted), then one `transaction.atomic` block; when any step
inside the block raises, the database reverts to the state at entry and
the handler answers 500.  On success the body carries
`created_sessions` and `len(log_objects)`. -/
def post (oracle : Nat → Bool) (db : DB) (dev : Device) (r : UploadRequest)
    (now : Nat) : UploadResult × DB :=
  if SessionUploadSerializer.is_valid r = false then (.badRequest, db)
  else
    match atomic_block oracle db dev r now with
    | .ok (db2, count, nlogs) => (.created count nlogs, db2)
    | .error e => (.serverError e, db)

end SessionUploadView

/-! ## FirmwareRegistry: upload (`devices/serializers.py` lines 131-153,
`devices/views.py` lines 132-151) and download (`devices/views.py`
lines 288-328) -/

namespace FirmwareSerializer

/-- Validation run by `FirmwareSerializer.is_valid()`.  The serializer
is a `ModelSerializer` over a model whose `firmware_version` column is
declared `unique=True`, so DRF auto-attaches a `UniqueValidator` over
all `Firmware` rows to that writable field (first conjunct): any
duplicate version string, whatever its device, fails field validation
with a `ValidationError`.  The hand-written `validate` method (lines
146-153) then re-checks the `(device, firmware_version)` pair (second
conjunct); it only runs once field validation passed, so it is
subsumed by the unique validator. -/
def is_valid (db : DB) (deviceId : String) (fwver : String) : Bool :=
  !(db.firmwares.any (fun f => f.firmware_version == fwver)) &&
  !(db.firmwares.any (fun f => f.device_id == deviceId && f.firmware_version == fwver))

end FirmwareSerializer

/-- Database insert of a `Firmware` row: `firmware_version` is declared
`unique=True` in `devices/models.py` (globally unique across devices),
so the insert raises `IntegrityError` whenever any row with the same
version string exists, regardless of its device.  Through
`FirmwareUploadView` this error branch is unreachable, because the
serializer's auto-attached `UniqueValidator` already rejects any
duplicate version string before the insert. -/
def DB.insertFirmware (db : DB) (fw : Firmware) : Except PyError DB :=
  if db.firmwares.any (fun f => f.firmware_version == fw.firmware_version) then
    .error (.integrityError "UNIQUE constraint failed: devices_firmware.firmware_version")
  else .ok { db with firmwares := db.firmwares ++ [fw] }

/-- HTTP-level outcome of a firmware upload. -/
inductive FwUploadResult where
  | badRequest
  | created (checksum : String)
  | serverError (e : PyError)
deriving Repr, DecidableEq

namespace FirmwareUploadView

/-- `FirmwareUploadView` (`devices/views.py` lines 132-151): serializer
validation, then `perform_create` computes the SHA-256 checksum of the
uploaded bytes and saves the firmware row with it, storing the file on
the backing store. -/
def post (db : DB) (deviceId : String) (fwver : String) (file_bytes : List Nat)
    (path : String) (notes : String) : FwUploadResult × DB :=
  if FirmwareSerializer.is_valid db deviceId fwver = false then (.badRequest, db)
  else
    let checksum := sha256_hexdigest file_bytes
    let fw : Firmware :=
      { id := db.next_firmware_id
        device_id := deviceId
        firmware_version := fwver
        file_path := path
        release_notes := notes
        checksum := checksum }
    match db.insertFirmware fw with
    | .error e => (.serverError e, db)
    | .ok db1 =>
      (.created checksum,
        { db1 with files := (path, file_bytes) :: db1.files
                   next_firmware_id := db1.next_firmware_id + 1 })

end FirmwareUploadView

/-- HTTP-level outcome of `FirmwareDownloadView.get`: a streamed file
with the `X-Checksum` response header, or one of the error replies. -/
inductive DownloadResult where
  | notFound (msg : String)
  | forbidden (msg : String)
  | badRequest (msg : String)
  | fileResponse (data : List Nat) (checksum_header : String)
deriving Repr, DecidableEq

namespace FirmwareDownloadView

/-- `FirmwareDownloadView.get` (`devices/views.py` lines 296-328):
unknown id → 404; foreign device → 403; missing backing file → 404;
recomputed checksum differing from the stored one → 400; otherwise the
file bytes are streamed with the stored checksum in the `X-Checksum`
header. -/
def get (db : DB) (dev : Device) (firmware_id : Nat) : DownloadResult :=
  match db.firmwares.find? (fun f => f.id == firmware_id) with
  | none => .notFound "Firmware not found"
  | some fw =>
    if fw.device_id != dev.device_id then .forbidden "access denied to firmware"
    else
      match db.files.find? (fun p => p.fst == fw.file_path) with
      | none => .notFound "firmware file not found"
      | some p =>
        if sha256_hexdigest p.snd != fw.checksum then .badRequest "checksum file is invalid"
        else .fileResponse p.snd fw.checksum

end FirmwareDownloadView

/-! ## Closed forms of the upload loop, used to state and prove the
batch-upload theorems -/

/-- Session row that `SessionUploadView.create_session` builds for a
batch item when the next primary key is `sid`. -/
def mkSession (db : DB) (dev : Device) (now : Nat) (sid : Nat) (item : SessionItem) :
    Session :=
  { id := sid
    patient := SessionUploadView.resolve_patient db item now
    device := some dev.device_id
    clinic := dev.clinic
    summary := item.summary
    start_time := item.start_time
    ended_at := item.ended_at
    status := "completed"
    cost := 0 }

/-- Rows appended by a fault-free run of the session loop, starting at
primary key `sid`. -/
def mkSessions (db : DB) (dev : Device) (now : Nat) (sid : Nat) :
    List SessionItem → List Session
  | [] => []
  | item :: rest => mkSession db dev now sid item :: mkSessions db dev now (sid + 1) rest

/-- Reference-to-primary-key bindings produced by a fault-free run of
the session loop, in creation order. -/
def mkRefMap (sid : Nat) : List SessionItem → List (String × Nat)
  | [] => []
  | item :: rest => (item.reference, sid) :: mkRefMap (sid + 1) rest

/-! ## Concrete fixtures used by the claim theorems and witnesses -/

/-- Empty database. -/
def emptyDB : DB :=
  { devices := [], licenses := [], firmwares := [], sessions := [],
    session_logs := [], patients := [], patient_tokens := [], files := [],
    next_session_id := 1, next_firmware_id := 1 }

/-- Device row builder for fixtures. -/
def mkDevice (id sn key fw st : String) : Device :=
  { device_id := id, serial_number := sn, clinic := some "C1",
    firmware_version := fw, status := st, lock_reason := none,
    last_heartbeat := none, last_online := none, api_key := key }

/-- Sync request carrying only the required `serial` field. -/
def serialOnlyReq : SyncRequest :=
  { serial := some "SN1", fw_ver := none, firmware_version := none,
    status := none, sessions := none, logs := none }

/-- Sync request with an entirely empty JSON body. -/
def emptyBodyReq : SyncRequest :=
  { serial := none, fw_ver := none, firmware_version := none,
    status := none, sessions := none, logs := none }

def dev_c3 : Device := mkDevice "D1" "SN1" "K1" "1.0.0" "active"

/-- Active license whose `end_date` (day 49) lies strictly before the
fixture's `today` (day 50). -/
def lic_c3 : License :=
  { id := 1, device_id := "D1", status := "active", license_type := "trial",
    start_date := some 10, end_date := some 49 }

def db_c3 : DB := { emptyDB with devices := [dev_c3], licenses := [lic_c3] }

def dev_c4 : Device := mkDevice "D1" "SN1" "K1" "1.2.0" "active"

def fw_c4a : Firmware :=
  { id := 1, device_id := "D1", firmware_version := "1.3.0",
    file_path := "firmware/a.bin", release_notes := "notes13", checksum := "c13" }

def fw_c4b : Firmware :=
  { id := 2, device_id := "D1", firmware_version := "1.1.0",
    file_path := "firmware/b.bin", release_notes := "notes11", checksum := "c11" }

def db_c4 : DB := { emptyDB with devices := [dev_c4], firmwares := [fw_c4a, fw_c4b] }

def dev_c5 : Device := mkDevice "D1" "SN1" "K1" "1.0.0" "active"

def fw_c5 : Firmware :=
  { id := 1, device_id := "D1", firmware_version := "1.1.0",
    file_path := "firmware/f.bin", release_notes := "",
    checksum := sha256_hexdigest [1, 2, 3] }

def db_c5 : DB :=
  { emptyDB with devices := [dev_c5], firmwares := [fw_c5],
                 files := [("firmware/f.bin", [1, 2, 3])] }

/-- Locked device holding API key `X`. -/
def dev_c6 : Device := mkDevice "D1" "SN1" "X" "1.0.0" "locked"

def db_c6 : DB := { emptyDB with devices := [dev_c6] }

def dev_c7 : Device := mkDevice "D1" "SN1" "K1" "1.0.0" "active"

def db_c7 : DB := { emptyDB with devices := [dev_c7] }

def dev_c8 : Device := mkDevice "D1" "SN1" "K1" "1.0.0" "active"

def lic_c8 : License :=
  { id := 1, device_id := "D1", status := "active", license_type := "full",
    start_date := some 10, end_date := some 400 }

def db_c8 : DB := { emptyDB with devices := [dev_c8], licenses := [lic_c8] }

def dev_c9 : Device := mkDevice "D1" "SN1" "K1" "1.0.0" "active"

def db_c9 : DB := { emptyDB with devices := [dev_c9] }

/-- Sync request reporting a new firmware version and carrying one
session item. -/
def req_c9 : SyncRequest :=
  { serial := some "SN1", fw_ver := none, firmware_version := some "2.0.0",
    status := none,
    sessions := some [{ patient_id := none, summary := some "s",
                        start_time := some 10, ended_at := none }],
    logs := none }

/-- Firmware version `1.0.0` owned by device `D2`. -/
def fw_c10 : Firmware :=
  { id := 1, device_id := "D2", firmware_version := "1.0.0",
    file_path := "firmware/old.bin", release_notes := "", checksum := "abc" }

def db_c10 : DB := { emptyDB with firmwares := [fw_c10] }

def dev_c1 : Device := mkDevice "D1" "SN1" "K1" "1.0.0" "active"

def db_c1 : DB := { emptyDB with devices := [dev_c1] }

/-- Upload session item with client reference `r1` (spec scenario). -/
def item_r1 : SessionItem :=
  { reference := "r1", patient_id := none, patient_token := none,
    start_time := 10, ended_at := some 20, summary := "summary" }

/-- Upload log item referencing `r1` (spec scenario). -/
def log_r1 : LogItem :=
  { session_reference := "r1", log_type := "info", message := "ok", logged_at := 11 }

/-- Upload log item referencing `r2`, which no session in the batch
carries. -/
def log_bad : LogItem :=
  { session_reference := "r2", log_type := "info", message := "ok", logged_at := 11 }

/-! ## Claim theorems -/

/-- C1: a batch containing a log whose `session_reference` matches no
session `reference` of the same batch is rejected with a
`ValidationError` (HTTP 400) and the database is untouched; and
whenever the atomic block raises (HTTP 500), the database after the
request equals the database before it — nothing from the batch is
committed. -/
theorem upload_batch_all_or_nothing (oracle : Nat → Bool) (db : DB) (dev : Device)
    (r : UploadRequest) (now : Nat) :
    ((∃ l ∈ r.logs, (r.sessions.map SessionItem.reference).contains l.session_reference = false) →
      SessionUploadView.post oracle db dev r now = (.badRequest, db)) ∧
    (∀ e, (SessionUploadView.post oracle db dev r now).fst = .serverError e →
      (SessionUploadView.post oracle db dev r now).snd = db) := by
  constructor
  · rintro ⟨l, hl, hcon⟩
    have hrefs : SessionUploadSerializer.refs_valid r = false := by
      unfold SessionUploadSerializer.refs_valid
      rw [List.all_eq_false]
      refine ⟨l, hl, ?_⟩
      intro hc
      rw [hcon] at hc
      simp at hc
    have hval : SessionUploadSerializer.is_valid r = false := by
      unfold SessionUploadSerializer.is_valid
      simp [hrefs]
    unfold SessionUploadView.post
    simp [hval]
  · intro e
    unfold SessionUploadView.post
    cases hval : SessionUploadSerializer.is_valid r with
    | false => simp
    | true =>
      simp only [Bool.true_eq_false, if_false]
      cases hblock : SessionUploadView.atomic_block oracle db dev r now with
      | ok v =>
        obtain ⟨db2, count, nlogs⟩ := v
        simp
      | error e2 =>
        simp

/-- Witness for C1: the concrete batch `{sessions:[r1], logs:[log→r2]}`
is rejected untouched, and a run whose first persistence call raises is
rolled back untouched. -/
theorem upload_batch_all_or_nothing_witness :
    SessionUploadView.post (fun _ => false) db_c1 dev_c1
        { sessions := [item_r1], logs := [log_bad] } 30 = (.badRequest, db_c1) ∧
    (SessionUploadView.post (fun _ => true) db_c1 dev_c1
        { sessions := [item_r1], logs := [log_r1] } 30).snd = db_c1 := by
  constructor
  · exact (upload_batch_all_or_nothing (fun _ => false) db_c1 dev_c1
      { sessions := [item_r1], logs := [log_bad] } 30).1 ⟨log_bad, by decide, by decide⟩
  · exact (upload_batch_all_or_nothing (fun _ => true) db_c1 dev_c1
      { sessions := [item_r1], logs := [log_r1] } 30).2
      (.databaseError "session create failed") (by decide)

/-- Patient resolution reads only the `patients` and `patient_tokens`
tables, so it is unchanged by session writes. -/
theorem resolve_patient_congr (db db' : DB) (item : SessionItem) (now : Nat)
    (hp : db'.patients = db.patients) (ht : db'.patient_tokens = db.patient_tokens) :
    SessionUploadView.resolve_patient db' item now =
      SessionUploadView.resolve_patient db item now := by
  unfold SessionUploadView.resolve_patient
  rw [hp, ht]

/-- The closed-form session rows depend on the database only through
the `patients` and `patient_tokens` tables. -/
theorem mkSessions_congr (db db' : DB) (dev : Device) (now : Nat)
    (hp : db'.patients = db.patients) (ht : db'.patient_tokens = db.patient_tokens) :
    ∀ (items : List SessionItem) (sid : Nat),
      mkSessions db' dev now sid items = mkSessions db dev now sid items := by
  intro items
  induction items with
  | nil => intro sid; rfl
  | cons item rest ih =>
    intro sid
    unfold mkSessions mkSession
    rw [resolve_patient_congr db db' item now hp ht, ih]

/-- Closed form of a fault-free run of the session loop: it succeeds,
appends exactly the `mkSessions` rows, advances the key counter by the
batch size, pushes the `mkRefMap` bindings (latest first) onto the
session map, and counts every item. -/
theorem create_sessions_loop_ok (dev : Device) (now : Nat) :
    ∀ (items : List SessionItem) (db : DB) (k : Nat)
      (smap : List (String × Nat)) (count : Nat),
    SessionUploadView.create_sessions_loop (fun _ => false) db dev items now k smap count =
      .ok ({ db with
               sessions := db.sessions ++ mkSessions db dev now db.next_session_id items,
               next_session_id := db.next_session_id + items.length },
           (mkRefMap db.next_session_id items).reverse ++ smap,
           count + items.length, k + items.length) := by
  intro items
  induction items with
  | nil =>
    intro db k smap count
    simp [SessionUploadView.create_sessions_loop, mkSessions, mkRefMap]
  | cons item rest ih =>
    intro db k smap count
    have hstep : SessionUploadView.create_sessions_loop (fun _ => false) db dev
        (item :: rest) now k smap count =
        SessionUploadView.create_sessions_loop (fun _ => false)
          { db with
              sessions := db.sessions ++ [mkSession db dev now db.next_session_id item],
              next_session_id := db.next_session_id + 1 }
          dev rest now (k + 1) ((item.reference, db.next_session_id) :: smap) (count + 1) := by
      simp [SessionUploadView.create_sessions_loop, SessionUploadView.create_session, mkSession]
    rw [hstep, ih]
    have hcongr := mkSessions_congr db
      { db with
          sessions := db.sessions ++ [mkSession db dev now db.next_session_id item],
          next_session_id := db.next_session_id + 1 }
      dev now rfl rfl rest (db.next_session_id + 1)
    simp only [mkSessions, mkRefMap, hcongr, List.reverse_cons, List.append_assoc,
      List.singleton_append, List.length_cons, Nat.add_assoc, Nat.add_comm 1]

/-- Length of the closed-form session rows. -/
theorem mkSessions_length (db : DB) (dev : Device) (now : Nat) :
    ∀ (items : List SessionItem) (sid : Nat),
      (mkSessions db dev now sid items).length = items.length := by
  intro items
  induction items with
  | nil => intro sid; rfl
  | cons item rest ih =>
    intro sid
    simp [mkSessions, ih]

/-- Element at position `i` of the closed-form session rows: the row
built from the i-th batch item with primary key `sid + i`. -/
theorem mkSessions_get? (db : DB) (dev : Device) (now : Nat) :
    ∀ (items : List SessionItem) (sid i : Nat),
      (mkSessions db dev now sid items).get? i =
        (items.get? i).map (fun item => mkSession db dev now (sid + i) item) := by
  intro items
  induction items with
  | nil => intro sid i; simp [mkSessions]
  | cons item rest ih =>
    intro sid i
    cases i with
    | zero => simp [mkSessions]
    | succ n =>
      simp only [mkSessions, List.get?_cons_succ]
      rw [ih]
      simp [Nat.add_assoc, Nat.add_comm 1]

/-- Keys of the reference map are the batch's references, in order. -/
theorem mkRefMap_fst :
    ∀ (items : List SessionItem) (sid : Nat),
      (mkRefMap sid items).map Prod.fst = items.map SessionItem.reference := by
  intro items
  induction items with
  | nil => intro sid; rfl
  | cons item rest ih =>
    intro sid
    simp [mkRefMap, ih]

/-- Lookup in the reversed reference map: under distinct references, a
reference occurring in the batch resolves to the primary key of the
session created from the unique batch item carrying it. -/
theorem find?_reverse_mkRefMap :
    ∀ (items : List SessionItem) (sid : Nat) (r : String),
      (items.map SessionItem.reference).Nodup →
      r ∈ items.map SessionItem.reference →
      ∃ i item, items.get? i = some item ∧ item.reference = r ∧
        ((mkRefMap sid items).reverse).find? (fun p => p.fst == r) = some (r, sid + i) := by
  intro items
  induction items with
  | nil =>
    intro sid r hnd hmem
    simp at hmem
  | cons item rest ih =>
    intro sid r hnd hmem
    rw [List.map_cons, List.nodup_cons] at hnd
    obtain ⟨hnotin, hnd2⟩ := hnd
    rw [List.map_cons, List.mem_cons] at hmem
    by_cases hr : r ∈ rest.map SessionItem.reference
    · obtain ⟨i, it, hget, href, hfind⟩ := ih (sid + 1) r hnd2 hr
      refine ⟨i + 1, it, by simpa using hget, href, ?_⟩
      rw [show mkRefMap sid (item :: rest) =
            (item.reference, sid) :: mkRefMap (sid + 1) rest from rfl,
          List.reverse_cons, List.find?_append, hfind]
      have : sid + 1 + i = sid + (i + 1) := by omega
      simp [Option.or, this]
    · have hreq : r = item.reference := by
        rcases hmem with h | h
        · exact h
        · exact absurd h hr
      subst hreq
      refine ⟨0, item, rfl, rfl, ?_⟩
      rw [show mkRefMap sid (item :: rest) =
            (item.reference, sid) :: mkRefMap (sid + 1) rest from rfl,
          List.reverse_cons, List.find?_append]
      have hnone : ((mkRefMap (sid + 1) rest).reverse).find?
          (fun p => p.fst == item.reference) = none := by
        rw [List.find?_eq_none]
        intro p hp hc
        have hpmem : p ∈ mkRefMap (sid + 1) rest := by
          simpa using hp
        have hkey : p.fst ∈ (mkRefMap (sid + 1) rest).map Prod.fst :=
          List.mem_map_of_mem Prod.fst hpmem
        rw [mkRefMap_fst] at hkey
        have hpeq : p.fst = item.reference := by simpa using hc
        rw [hpeq] at hkey
        exact hnotin hkey
      rw [hnone]
      simp [Option.or, List.find?]

/-- When every log of the batch resolves in the session map, the
prepared log objects are one per log. -/
theorem build_log_objects_length :
    ∀ (logs : List LogItem) (smap : List (String × Nat)),
      (∀ l ∈ logs, (smap.find? (fun p => p.fst == l.session_reference)).isSome) →
      (SessionUploadView.build_log_objects smap logs).length = logs.length := by
  intro logs
  induction logs with
  | nil => intro smap h; rfl
  | cons l rest ih =>
    intro smap h
    obtain ⟨p0, hp0⟩ := Option.isSome_iff_exists.mp (h l (List.mem_cons_self l rest))
    unfold SessionUploadView.build_log_objects at *
    rw [List.filterMap_cons]
    simp only [hp0]
    simp [ih smap (fun l2 h2 => h l2 (List.mem_cons_of_mem l h2))]

/-- Element at position `j` of the prepared log objects: the j-th log,
bound to the primary key its reference resolves to. -/
theorem build_log_objects_get? :
    ∀ (logs : List LogItem) (smap : List (String × Nat)) (j : Nat) (l : LogItem) (sid : Nat),
      logs.get? j = some l →
      smap.find? (fun p => p.fst == l.session_reference) = some (l.session_reference, sid) →
      (∀ l2 ∈ logs, (smap.find? (fun p => p.fst == l2.session_reference)).isSome) →
      (SessionUploadView.build_log_objects smap logs).get? j =
        some { session := some sid, log_type := l.log_type,
               message := l.message, logged_at := l.logged_at } := by
  intro logs
  induction logs with
  | nil =>
    intro smap j l sid hj
    simp at hj
  | cons l0 rest ih =>
    intro smap j l sid hj hfind hall
    obtain ⟨p0, hp0⟩ := Option.isSome_iff_exists.mp (hall l0 (List.mem_cons_self l0 rest))
    unfold SessionUploadView.build_log_objects at *
    rw [List.filterMap_cons]
    cases j with
    | zero =>
      have hl : l0 = l := by
        simpa using hj
      subst hl
      simp [hfind]
    | succ n =>
      simp only [hp0, List.get?_cons_succ]
      exact ih smap n l sid (by simpa using hj) hfind
        (fun l2 h2 => hall l2 (List.mem_cons_of_mem l0 h2))

/-- C2: a valid batch of N sessions and M logs (every log's
`session_reference` matching a session `reference`, references
pairwise distinct) commits exactly N sessions and M logs, answers 201
with `created_sessions = N` and `created_logs = M`, and every persisted
log's session foreign key is the primary key of the session persisted
from the batch item carrying the matching reference. -/
theorem upload_valid_batch_commits (db : DB) (dev : Device) (r : UploadRequest) (now : Nat)
    (hvalid : SessionUploadSerializer.is_valid r = true)
    (hnodup : (r.sessions.map SessionItem.reference).Nodup) :
    ∃ newSessions newLogs,
      SessionUploadView.post (fun _ => false) db dev r now =
        (.created r.sessions.length r.logs.length,
         { db with
             sessions := db.sessions ++ newSessions,
             session_logs := db.session_logs ++ newLogs,
             next_session_id := db.next_session_id + r.sessions.length }) ∧
      newSessions.length = r.sessions.length ∧
      newLogs.length = r.logs.length ∧
      (∀ j l, r.logs.get? j = some l →
        ∃ i item s, r.sessions.get? i = some item ∧
          item.reference = l.session_reference ∧
          newSessions.get? i = some s ∧
          s.id = db.next_session_id + i ∧
          newLogs.get? j = some { session := some s.id, log_type := l.log_type,
                                  message := l.message, logged_at := l.logged_at }) := by
  have hand := hvalid
  unfold SessionUploadSerializer.is_valid at hand
  rw [Bool.and_eq_true] at hand
  have hrefs : SessionUploadSerializer.refs_valid r = true := hand.2
  have hmem : ∀ l ∈ r.logs, l.session_reference ∈ r.sessions.map SessionItem.reference := by
    intro l hl
    have h1 := List.all_eq_true.mp hrefs l hl
    simpa using h1
  have hallsome : ∀ l ∈ r.logs,
      (((mkRefMap db.next_session_id r.sessions).reverse).find?
        (fun p => p.fst == l.session_reference)).isSome := by
    intro l hl
    obtain ⟨i, item, hget, href, hfind⟩ :=
      find?_reverse_mkRefMap r.sessions db.next_session_id l.session_reference hnodup (hmem l hl)
    rw [hfind]
    rfl
  have hlen : (SessionUploadView.build_log_objects
      ((mkRefMap db.next_session_id r.sessions).reverse) r.logs).length = r.logs.length :=
    build_log_objects_length r.logs _ hallsome
  have hblock : SessionUploadView.atomic_block (fun _ => false) db dev r now =
      .ok ({ db with
               sessions := db.sessions ++ mkSessions db dev now db.next_session_id r.sessions,
               session_logs := db.session_logs ++ SessionUploadView.build_log_objects
                 ((mkRefMap db.next_session_id r.sessions).reverse) r.logs,
               next_session_id := db.next_session_id + r.sessions.length },
           r.sessions.length, r.logs.length) := by
    unfold SessionUploadView.atomic_block
    rw [create_sessions_loop_ok dev now r.sessions db 0 [] 0]
    simp only [Nat.zero_add, List.append_nil]
    by_cases hemp : (SessionUploadView.build_log_objects
        ((mkRefMap db.next_session_id r.sessions).reverse) r.logs).isEmpty
    · have hnil := List.isEmpty_iff.mp hemp
      rw [hnil] at hlen
      simp only [bind, Except.bind, pure, Except.pure]
      simp [hemp, hnil, ← hlen]
    · simp only [bind, Except.bind, pure, Except.pure]
      simp [hemp, hlen]
  refine ⟨mkSessions db dev now db.next_session_id r.sessions,
          SessionUploadView.build_log_objects
            ((mkRefMap db.next_session_id r.sessions).reverse) r.logs,
          ?_, mkSessions_length db dev now r.sessions db.next_session_id, hlen, ?_⟩
  · unfold SessionUploadView.post
    rw [hvalid]
    simp only [Bool.true_eq_false, if_false]
    rw [hblock]
  · intro j l hj
    obtain ⟨i, item, hget, href, hfind⟩ :=
      find?_reverse_mkRefMap r.sessions db.next_session_id l.session_reference hnodup
        (hmem l (List.get?_mem hj))
    refine ⟨i, item, mkSession db dev now (db.next_session_id + i) item,
      hget, href, ?_, rfl, ?_⟩
    · rw [mkSessions_get? db dev now r.sessions db.next_session_id i, hget]
      rfl
    · exact build_log_objects_get? r.logs _ j l (db.next_session_id + i) hj hfind hallsome

/-- Witness for C2: the spec scenario batch (one session `r1`, one log
referencing `r1`) commits one session and one log, the log bound to
the session created from the item carrying `r1`. -/
theorem upload_valid_batch_commits_witness :
    ∃ newSessions newLogs,
      SessionUploadView.post (fun _ => false) db_c1 dev_c1
          { sessions := [item_r1], logs := [log_r1] } 30 =
        (.created 1 1,
         { db_c1 with
             sessions := db_c1.sessions ++ newSessions,
             session_logs := db_c1.session_logs ++ newLogs,
             next_session_id := db_c1.next_session_id + 1 }) ∧
      newSessions.length = 1 ∧
      newLogs.length = 1 ∧
      (∀ j l, [log_r1].get? j = some l →
        ∃ i item s, [item_r1].get? i = some item ∧
          item.reference = l.session_reference ∧
          newSessions.get? i = some s ∧
          s.id = db_c1.next_session_id + i ∧
          newLogs.get? j = some { session := some s.id, log_type := l.log_type,
                                  message := l.message, logged_at := l.logged_at }) :=
  upload_valid_batch_commits db_c1 dev_c1 { sessions := [item_r1], logs := [log_r1] } 30
    (by decide) (by decide)

/-- C3: the claim says every sync call reports
`effective_lock = device_axis_locked OR NOT license_valid`, and in
particular an unlocked device whose only active license expired
yesterday gets `license_valid: false` and `status: "locked"`.  The code
indeed evaluates the license axis to `false` in this situation (first
conjunct), but the handler then reads `device.is_locked`, a field the
`Device` model does not declare, so every well-formed sync request
raises `AttributeError` (HTTP 500) and no lock status is ever
reported (second conjunct). -/
theorem sync_effective_lock_attribute_error :
    DeviceSyncView.check_license db_c3 dev_c3 50 = .ok false ∧
    (DeviceSyncView.post (fun _ => false) db_c3 dev_c3 serialOnlyReq 100 50).fst =
      .serverError (.attributeError "'Device' object has no attribute 'is_locked'") := by
  exact ⟨rfl, by decide⟩

/-- C4: the claim says sync on device version `"1.2.0"` with stored
versions `{"1.3.0","1.1.0"}` reports an update to `"1.3.0"` with its
checksum, release notes and `mandatory: true`.  The firmware query of
the code does select exactly that candidate and the descriptor builder
produces exactly those fields (first two conjuncts), but the handler
raises `AttributeError` on `device.is_locked` before any response is
assembled, so no sync response ever includes the descriptor (third
conjunct). -/
theorem sync_firmware_selection_no_response :
    DeviceSyncView.latest_firmware db_c4.firmwares "D1" "1.2.0" = some fw_c4a ∧
    DeviceSyncView.firmware_update_info fw_c4a =
      { version := "1.3.0", url := "/api/devices/firmware/download/1/",
        checksum := "c13", release_notes := "notes13", mandatory := true } ∧
    (DeviceSyncView.post (fun _ => false) db_c4 dev_c4 serialOnlyReq 100 50).fst =
      .serverError (.attributeError "'Device' object has no attribute 'is_locked'") := by
  decide

/-- C5: firmware download taxonomy.  Unknown firmware id → 404; a record
owned by a different device → 403 and no bytes served; missing backing
file → 404; recomputed checksum differing from the stored one → 400 and
the corrupted bytes are never served; otherwise the stored bytes are
streamed with the stored checksum in the response header, and that
header equals the checksum of the bytes served. -/
theorem firmware_download_taxonomy (db : DB) (dev : Device) (fid : Nat) :
    (db.firmwares.find? (fun f => f.id == fid) = none →
      FirmwareDownloadView.get db dev fid = .notFound "Firmware not found") ∧
    (∀ fw, db.firmwares.find? (fun f => f.id == fid) = some fw →
      (fw.device_id ≠ dev.device_id →
        FirmwareDownloadView.get db dev fid = .forbidden "access denied to firmware") ∧
      (fw.device_id = dev.device_id →
        (db.files.find? (fun p => p.fst == fw.file_path) = none →
          FirmwareDownloadView.get db dev fid = .notFound "firmware file not found") ∧
        (∀ p, db.files.find? (fun p => p.fst == fw.file_path) = some p →
          (sha256_hexdigest p.snd ≠ fw.checksum →
            FirmwareDownloadView.get db dev fid = .badRequest "checksum file is invalid") ∧
          (sha256_hexdigest p.snd = fw.checksum →
            FirmwareDownloadView.get db dev fid = .fileResponse p.snd fw.checksum ∧
            sha256_hexdigest p.snd = fw.checksum)))) := by
  constructor
  · intro h
    simp [FirmwareDownloadView.get, h]
  · intro fw hfw
    constructor
    · intro hne
      simp [FirmwareDownloadView.get, hfw, hne]
    · intro heq
      constructor
      · intro hfile
        simp [FirmwareDownloadView.get, hfw, heq, hfile]
      · intro p hp
        constructor
        · intro hsum
          simp [FirmwareDownloadView.get, hfw, heq, hp, hsum]
        · intro hsum
          exact ⟨by simp [FirmwareDownloadView.get, hfw, heq, hp, hsum], hsum⟩

/-- Witness for C5: on the concrete store whose stored checksum equals
the hash of the stored bytes, the download streams the bytes with that
checksum in the header. -/
theorem firmware_download_taxonomy_witness :
    FirmwareDownloadView.get db_c5 dev_c5 1 =
      .fileResponse [1, 2, 3] (sha256_hexdigest [1, 2, 3]) ∧
    sha256_hexdigest [1, 2, 3] = fw_c5.checksum := by
  have h := ((((firmware_download_taxonomy db_c5 dev_c5 1).2 fw_c5 (by decide)).2
    rfl).2 ("firmware/f.bin", [1, 2, 3]) (by decide)).2 rfl
  exact ⟨h.1, h.2⟩

/-- C10 amended: a firmware upload is rejected with a `ValidationError`
(HTTP 400) exactly when any firmware record with the same version
string already exists — for the same device or any other, because the
serializer's auto-attached `UniqueValidator` enforces the model's
global `unique=True` on `firmware_version`, which strictly subsumes the
claimed `(device, version)` rejection; when no record with that version
exists at all, the upload succeeds, storing the computed content
checksum with the new record. -/
theorem firmware_upload_uniqueness (db : DB) (deviceId fwver : String)
    (bytes : List Nat) (path notes : String) :
    ((∃ f ∈ db.firmwares, f.firmware_version = fwver) →
      FirmwareUploadView.post db deviceId fwver bytes path notes = (.badRequest, db)) ∧
    ((¬ ∃ f ∈ db.firmwares, f.firmware_version = fwver) →
      FirmwareUploadView.post db deviceId fwver bytes path notes =
        (.created (sha256_hexdigest bytes),
         { db with
             firmwares := db.firmwares ++
               [{ id := db.next_firmware_id, device_id := deviceId,
                  firmware_version := fwver, file_path := path,
                  release_notes := notes, checksum := sha256_hexdigest bytes }],
             files := (path, bytes) :: db.files,
             next_firmware_id := db.next_firmware_id + 1 })) := by
  have hver : (db.firmwares.any (fun f => f.firmware_version == fwver)) = true ↔
      ∃ f ∈ db.firmwares, f.firmware_version = fwver := by
    simp [List.any_eq_true]
  have hpair_imp :
      (db.firmwares.any (fun f => f.device_id == deviceId && f.firmware_version == fwver)) = true →
      ∃ f ∈ db.firmwares, f.firmware_version = fwver := by
    intro h
    rw [List.any_eq_true] at h
    obtain ⟨f, hf, hp⟩ := h
    rw [Bool.and_eq_true] at hp
    exact ⟨f, hf, by simpa using hp.2⟩
  constructor
  · intro h
    have h1 : FirmwareSerializer.is_valid db deviceId fwver = false := by
      unfold FirmwareSerializer.is_valid
      rw [hver.mpr h]
      rfl
    simp [FirmwareUploadView.post, h1]
  · intro h
    have hv : (db.firmwares.any (fun f => f.firmware_version == fwver)) = false := by
      cases hvv : db.firmwares.any (fun f => f.firmware_version == fwver) with
      | false => rfl
      | true => exact absurd (hver.mp hvv) h
    have hp : (db.firmwares.any
        (fun f => f.device_id == deviceId && f.firmware_version == fwver)) = false := by
      cases hpp : db.firmwares.any
          (fun f => f.device_id == deviceId && f.firmware_version == fwver) with
      | false => rfl
      | true => exact absurd (hpair_imp hpp) h
    have h1 : FirmwareSerializer.is_valid db deviceId fwver = true := by
      unfold FirmwareSerializer.is_valid
      rw [hv, hp]
      rfl
    simp [FirmwareUploadView.post, h1, DB.insertFirmware, hv]

/-- Witness for C10: uploading version `2.0.0` into the empty store
succeeds, creating the record with the computed checksum. -/
theorem firmware_upload_uniqueness_witness :
    FirmwareUploadView.post emptyDB "D1" "2.0.0" [9, 9] "firmware/n.bin" "notes" =
      (.created (sha256_hexdigest [9, 9]),
       { emptyDB with
           firmwares := [{ id := 1, device_id := "D1", firmware_version := "2.0.0",
                           file_path := "firmware/n.bin", release_notes := "notes",
                           checksum := sha256_hexdigest [9, 9] }],
           files := [("firmware/n.bin", [9, 9])],
           next_firmware_id := 2 }) := by
  have h := (firmware_upload_uniqueness emptyDB "D1" "2.0.0" [9, 9] "firmware/n.bin"
    "notes").2 (by simp [emptyDB])
  simpa [emptyDB] using h

/-- C6 counterexample: a device whose stored key matches the presented
key `X` but whose status is `locked` is rejected with
`AuthenticationFailed`, refuting the claim that `locked` devices
authenticate. -/
theorem locked_device_auth_rejected :
    db_c6.devices = [dev_c6] ∧ dev_c6.api_key = "X" ∧ dev_c6.status = "locked" ∧
    DeviceAuthentication.authenticate db_c6 (some "X") = .failed "Invalid API key" := by
  decide

/-- C7 counterexample: `POST /devices/sync/` with the empty JSON body
is rejected with a 400 validation error and mutates nothing, refuting
the claim that the empty body is accepted with a 200 response. -/
theorem sync_empty_body_rejected :
    DeviceSyncView.post (fun _ => false) db_c7 dev_c7 emptyBodyReq 100 50 =
      (.badRequest, db_c7) := by
  decide

/-- C7 amended: the empty body fails `DeviceSyncSerializer` validation
because `serial` is a required field, while `fw_ver`,
`firmware_version`, `status`, `sessions` and `logs` are all optional —
any body supplying a non-blank `serial` passes validation whatever the
other fields hold. -/
theorem sync_serial_required_others_optional :
    DeviceSyncSerializer.is_valid emptyBodyReq = false ∧
    ∀ fv fw st ss lg,
      DeviceSyncSerializer.is_valid
        { serial := some "SN1", fw_ver := fv, firmware_version := fw,
          status := st, sessions := ss, logs := lg } = true := by
  exact ⟨by decide, fun fv fw st ss lg => rfl⟩

/-- Definitional unfolding of `DeviceAuthentication.authenticate` on a
present header. -/
theorem authenticate_some_eq (db : DB) (k : String) :
    DeviceAuthentication.authenticate db (some k) =
      (match db.devices.find? (fun d => d.api_key == k && d.status == "active") with
       | some d => .ok d
       | none => .failed "Invalid API key") := rfl

/-- C6 amended: authentication with a presented API key succeeds exactly
when some device's stored key matches and that device's status is
`active`; it fails with `AuthenticationError` exactly when no device
with status `active` carries the key — a `locked` device's key is
rejected like an unknown one. -/
theorem device_auth_active_only (db : DB) (k : String) :
    ((∃ d ∈ db.devices, d.api_key = k ∧ d.status = "active") ↔
      ∃ d, DeviceAuthentication.authenticate db (some k) = .ok d ∧
        d.api_key = k ∧ d.status = "active") ∧
    (DeviceAuthentication.authenticate db (some k) = .failed "Invalid API key" ↔
      ∀ d ∈ db.devices, ¬ (d.api_key = k ∧ d.status = "active")) := by
  have hpred : ∀ d : Device,
      ((d.api_key == k && d.status == "active") = true) ↔
        (d.api_key = k ∧ d.status = "active") := by
    intro d
    simp [Bool.and_eq_true, beq_iff_eq]
  constructor
  · constructor
    · rintro ⟨d, hd, hk, hs⟩
      have hsome : (db.devices.find? (fun d => d.api_key == k && d.status == "active")).isSome := by
        rw [List.find?_isSome]
        exact ⟨d, hd, (hpred d).mpr ⟨hk, hs⟩⟩
      obtain ⟨d', hd'⟩ := Option.isSome_iff_exists.mp hsome
      have hp := List.find?_some hd'
      rw [hpred d'] at hp
      refine ⟨d', ?_, hp.1, hp.2⟩
      rw [authenticate_some_eq, hd']
    · rintro ⟨d, hok, hk, hs⟩
      rw [authenticate_some_eq] at hok
      cases hfind : db.devices.find? (fun d => d.api_key == k && d.status == "active") with
      | none =>
        rw [hfind] at hok
        exact absurd hok (by simp)
      | some d' =>
        rw [hfind] at hok
        have hdd : d' = d := by
          injection hok
        subst hdd
        exact ⟨d', List.mem_of_find?_eq_some hfind, hk, hs⟩
  · constructor
    · intro hfail d hd hc
      rw [authenticate_some_eq] at hfail
      cases hfind : db.devices.find? (fun d => d.api_key == k && d.status == "active") with
      | none =>
        have := List.find?_eq_none.mp hfind d hd
        exact this ((hpred d).mpr hc)
      | some d' =>
        rw [hfind] at hfail
        exact absurd hfail (by simp)
    · intro hall
      rw [authenticate_some_eq]
      have hnone : db.devices.find? (fun d => d.api_key == k && d.status == "active") = none := by
        rw [List.find?_eq_none]
        intro d hd hc
        exact hall d hd ((hpred d).mp hc)
      rw [hnone]

/-- C8: the claim says `lock(device, reason)` records the reason, locks
the device axis and forces an existing license to `locked`,
idempotently.  The handler persists the device row with
`status = 'locked'` and the reason, but then reads `device.license` —
the reverse accessor is `device.licenses`, so `AttributeError` is
raised (uncaught by the `except License.DoesNotExist` clause), the
existing license keeps status `active`, and the request fails after
the device save. -/
theorem lock_attribute_error_license_untouched :
    DeviceViewSet.lock db_c8 dev_c8 (some "maintenance") =
      (.error (.attributeError "'Device' object has no attribute 'license'"),
       { db_c8 with
           devices := [{ dev_c8 with status := "locked", lock_reason := some "maintenance" }] }) ∧
    (DeviceViewSet.lock db_c8 dev_c8 (some "maintenance")).snd.licenses = [lic_c8] ∧
    lic_c8.status = "active" := by
  decide

/-- C9: the claim says ingestion failures never roll back step 1's
heartbeat / firmware-version update and the sync response is still
returned.  The persisted-device half is real: the update of step 1
survives (second conjunct; nothing rolls it back).  But the handler
raises `AttributeError` on `device.is_locked` *before*
`process_sessions` / `process_logs` run, so the supplied session is
never ingested (third conjunct) and no sync response is ever returned
(first conjunct). -/
theorem sync_heartbeat_persisted_no_response :
    (DeviceSyncView.post (fun _ => false) db_c9 dev_c9 req_c9 100 50).fst =
      .serverError (.attributeError "'Device' object has no attribute 'is_locked'") ∧
    (DeviceSyncView.post (fun _ => false) db_c9 dev_c9 req_c9 100 50).snd.devices =
      [{ dev_c9 with firmware_version := "2.0.0", last_heartbeat := some 100,
                     last_online := some 100 }] ∧
    (DeviceSyncView.post (fun _ => false) db_c9 dev_c9 req_c9 100 50).snd.sessions = [] := by
  decide

/-- C10 counterexample: uploading version `1.0.0` for device `D1` while
device `D2` already owns a firmware with that version — and no record
for `D1` with that version exists — is rejected by serializer
validation (the auto-attached `UniqueValidator` over the globally
unique `firmware_version` column) with a `ValidationError` (HTTP 400),
storing nothing.  This refutes the claim that such an upload succeeds
whenever no `(device, version)` record for the uploading device
exists. -/
theorem firmware_upload_cross_device_version_collision :
    fw_c10.device_id = "D2" ∧ db_c10.firmwares = [fw_c10] ∧
    FirmwareSerializer.is_valid db_c10 "D1" "1.0.0" = false ∧
    FirmwareUploadView.post db_c10 "D1" "1.0.0" [7, 7] "firmware/x.bin" "" =
      (.badRequest, db_c10) := by
  decide

end Thermia
